import Mathlib

/-!
Shallow embedding of `src/databricks_query.py`: a connection handle to a
remote SQL warehouse (class `DatabricksConnection` with methods `connect`,
`execute_query`, `query_to_dataframe`, `close`) and the convenience entry
point `pull_databricks_data`.

The vendor client library (`databricks.sql`) and the tabular library
(`pandas`) are collaborators outside the module. They are modelled by a
`Backend` record that fixes what each collaborator call returns during a
run, and by `mkDataFrame`, which models `pd.DataFrame(rows, columns)`:
it pads jagged rows with nulls to the maximal width and fails when the
number of column names differs from that width. Collaborator `close()`
calls are modelled as total and idempotent, following DB-API semantics.

Python exceptions are modelled as `Except String` carrying the rendered
message; `print` output and the externally visible collaborator calls are
recorded in an event trace so that claims about diagnostics, call counts
and information flow can be stated.
-/

set_option autoImplicit false

deriving instance DecidableEq for Except

namespace DatabricksQuery

/-- A SQL value as it appears in a fetched row: the example data uses
integers and strings, and `null` models the padding value `NaN`. -/
inductive Value where
  | int (i : Int)
  | str (s : String)
  | null
deriving DecidableEq, Repr

/-- A fetched row: an ordered sequence of column values. -/
abbrev Row := List Value

/-- One entry of `cursor.description`: the column name followed by type
metadata; the code reads only component 0, the name. -/
abbrev ColDesc := String × String

/-- The opaque vendor session object held in `self.connection`; the model
tracks only whether its `close()` has been called. -/
structure Conn where
  closed : Bool
deriving DecidableEq, Repr

/-- The opaque vendor cursor object held in `self.cursor`; `description`
is `none` until a statement has been executed, as in the Python client. -/
structure Cursor where
  closed : Bool
  description : Option (List ColDesc)
deriving DecidableEq, Repr

/-- The state of a `DatabricksConnection` instance: the five constructor
parameters stored by `__init__` plus the two resource fields. -/
structure DatabricksConnection where
  hostname : String
  http_path : String
  personal_access_token : String
  catalog : Option String
  schema : Option String
  connection : Option Conn
  cursor : Option Cursor
deriving DecidableEq, Repr

/-- Behaviour of the collaborators during one run: whether `sql.connect`
and `connection.cursor()` succeed, and per query whether
`cursor.execute` plus `fetchall` succeed, which rows they return, and
which description the cursor exposes afterwards. Error fields carry the
rendered exception message. -/
structure Backend where
  connectOk : Bool
  connectErr : String
  cursorOk : Bool
  cursorErr : String
  execOk : String → Bool
  execErr : String → String
  fetchRows : String → List Row
  colDescs : String → List ColDesc

/-- Externally visible events of a run: module `print` output and the
collaborator calls the claims talk about. -/
inductive Event where
  | print (s : String)
  | connectAttempt (host path token : String)
  | executeAttempt (query : String)
  | buildDataFrame
  | closeCall
  | closeCursor
  | closeConn
deriving DecidableEq, Repr

/-- The diagnostic and status output of a trace: the `print` events, in
order. -/
def printsOf (evs : List Event) : List String :=
  evs.filterMap fun e =>
    match e with
    | .print s => some s
    | _ => none

/-- Number of `close()` invocations on the handle recorded in a trace. -/
def countCloseCalls (evs : List Event) : Nat :=
  evs.countP fun e =>
    match e with
    | .closeCall => true
    | _ => false

/-- Number of `cursor.execute` attempts recorded in a trace. -/
def countExecAttempts (evs : List Event) : Nat :=
  evs.countP fun e =>
    match e with
    | .executeAttempt _ => true
    | _ => false

/-- Number of `pd.DataFrame` constructions recorded in a trace. -/
def countBuildDataFrame (evs : List Event) : Nat :=
  evs.countP fun e =>
    match e with
    | .buildDataFrame => true
    | _ => false

/-- The tabular structure returned by `pd.DataFrame(rows, columns)`:
named columns and ordered rows. -/
structure DataFrame where
  columns : List String
  rows : List Row
deriving DecidableEq, Repr

/-- Width of a list of fetched rows as pandas sees it: the maximal row
length. -/
def rowWidth (rows : List Row) : Nat :=
  rows.foldr (fun r m => max r.length m) 0

/-- Model of `pd.DataFrame(rows, columns=columns)` on a list of row
tuples: an empty list yields an empty table with the given columns;
otherwise construction succeeds exactly when the number of column names
equals the data width, padding shorter rows with nulls, and fails with
the pandas shape message otherwise. -/
def mkDataFrame (rows : List Row) (columns : List String) : Except String DataFrame :=
  match rows with
  | [] => .ok { columns := columns, rows := [] }
  | _ :: _ =>
    let width := rowWidth rows
    if columns.length = width then
      .ok { columns := columns,
            rows := rows.map fun r => r ++ List.replicate (width - r.length) Value.null }
    else
      .error (toString columns.length ++ " columns passed, passed data had "
              ++ toString width ++ " columns")

/-- Rendered message of the `AttributeError` raised when a method is
invoked on `self.cursor` while it is `None`. -/
def attrErrNoneCursor : String :=
  "AttributeError: NoneType object has no attribute execute"

/-- Rendered message of the `TypeError` raised when `cursor.description`
is iterated while it is `None`. -/
def descNoneErr : String :=
  "TypeError: NoneType object is not iterable"

namespace DatabricksConnection

/-- Model of `__init__`: stores the parameters and sets both resource fields to
`None`. -/
def init (hostname http_path personal_access_token : String)
    (catalog schema : Option String) : DatabricksConnection :=
  { hostname := hostname
    http_path := http_path
    personal_access_token := personal_access_token
    catalog := catalog
    schema := schema
    connection := none
    cursor := none }

/-- Model of `connect`: calls `sql.connect` with the stored hostname, path and
token, then `connection.cursor()`, then prints the success message; any
failure is printed and re-raised, with fields assigned exactly as far as
the Python statements executed. -/
def connect (db : DatabricksConnection) (B : Backend) :
    Except String Unit × DatabricksConnection × List Event :=
  let att := Event.connectAttempt db.hostname db.http_path db.personal_access_token
  if B.connectOk then
    let db1 : DatabricksConnection := { db with connection := some { closed := false } }
    if B.cursorOk then
      (.ok (),
       { db1 with cursor := some { closed := false, description := none } },
       [att, .print "✓ Connected to Databricks"])
    else
      (.error B.cursorErr, db1,
       [att, .print ("✗ Failed to connect to Databricks: " ++ B.cursorErr)])
  else
    (.error B.connectErr, db,
     [att, .print ("✗ Failed to connect to Databricks: " ++ B.connectErr)])

/-- Model of `execute_query`: runs `cursor.execute` then `fetchall` and returns
the fetched rows; a failure (including the `AttributeError` when the
cursor is `None`) is printed and re-raised. On success the cursor
exposes the post-execution description. -/
def execute_query (db : DatabricksConnection) (B : Backend) (query : String) :
    Except String (List Row) × DatabricksConnection × List Event :=
  match db.cursor with
  | none =>
    (.error attrErrNoneCursor, db,
     [.print ("✗ Query execution failed: " ++ attrErrNoneCursor)])
  | some c =>
    if B.execOk query then
      (.ok (B.fetchRows query),
       { db with cursor := some { c with description := some (B.colDescs query) } },
       [.executeAttempt query])
    else
      (.error (B.execErr query), db,
       [.executeAttempt query,
        .print ("✗ Query execution failed: " ++ B.execErr query)])

/-- Model of `query_to_dataframe`: runs `execute_query`, reads the column names
from `cursor.description`, builds the dataframe and prints the row
count; any failure inside the `try` block — including one already
printed and re-raised by `execute_query` — is printed by this method
too and re-raised. -/
def query_to_dataframe (db : DatabricksConnection) (B : Backend) (query : String) :
    Except String DataFrame × DatabricksConnection × List Event :=
  match db.execute_query B query with
  | (.error e, db1, evs) =>
    (.error e, db1, evs ++ [.print ("✗ Failed to convert results to DataFrame: " ++ e)])
  | (.ok results, db1, evs) =>
    match db1.cursor with
    | none =>
      (.error attrErrNoneCursor, db1,
       evs ++ [.print ("✗ Failed to convert results to DataFrame: " ++ attrErrNoneCursor)])
    | some c =>
      match c.description with
      | none =>
        (.error descNoneErr, db1,
         evs ++ [.print ("✗ Failed to convert results to DataFrame: " ++ descNoneErr)])
      | some descs =>
        let columns := descs.map Prod.fst
        match mkDataFrame results columns with
        | .error e =>
          (.error e, db1,
           evs ++ [.buildDataFrame,
                   .print ("✗ Failed to convert results to DataFrame: " ++ e)])
        | .ok df =>
          (.ok df, db1,
           evs ++ [.buildDataFrame,
                   .print ("✓ Retrieved " ++ toString df.rows.length ++ " rows")])

/-- Model of `close`: closes the cursor if the field is truthy, then the
connection if that field is truthy, printing the closed message in the
latter case; absent resources are skipped and nothing is raised.
Collaborator `close()` is idempotent, so re-closing a closed resource is
harmless; the fields are not reset to `None`. -/
def close (db : DatabricksConnection) :
    Except String Unit × DatabricksConnection × List Event :=
  let step1 : DatabricksConnection × List Event :=
    match db.cursor with
    | some c => ({ db with cursor := some { c with closed := true } }, [Event.closeCursor])
    | none => (db, [])
  match step1.1.connection with
  | some c =>
    (.ok (), { step1.1 with connection := some { c with closed := true } },
     Event.closeCall :: step1.2 ++ [Event.closeConn, Event.print "✓ Connection closed"])
  | none => (.ok (), step1.1, Event.closeCall :: step1.2)

end DatabricksConnection

/-- Holds (as `true`) when every resource the handle still references has been
closed: after a proper teardown no open session or cursor is held. -/
def allReleased (db : DatabricksConnection) : Bool :=
  (match db.connection with
   | some c => c.closed
   | none => true)
  &&
  (match db.cursor with
   | some c => c.closed
   | none => true)

/-- The value returned by `pull_databricks_data`: a dataframe or the raw
list of row tuples. -/
inductive PullResult where
  | table (df : DataFrame)
  | raw (rows : List Row)
deriving DecidableEq, Repr

/-- Model of `pull_databricks_data`: constructs a handle, and inside
`try ... finally db.close()` connects and then runs either
`query_to_dataframe` or `execute_query` according to `as_dataframe`;
`close` runs on every exit path and, being non-raising, never replaces
the propagating outcome. -/
def pull_databricks_data (B : Backend)
    (hostname http_path personal_access_token query : String)
    (as_dataframe : Bool) :
    Except String PullResult × List Event :=
  let db := DatabricksConnection.init hostname http_path personal_access_token none none
  match db.connect B with
  | (.error e, db1, evs1) =>
    let fin := db1.close
    (.error e, evs1 ++ fin.2.2)
  | (.ok _, db1, evs1) =>
    if as_dataframe then
      match db1.query_to_dataframe B query with
      | (.ok df, db2, evs2) =>
        let fin := db2.close
        (.ok (.table df), evs1 ++ evs2 ++ fin.2.2)
      | (.error e, db2, evs2) =>
        let fin := db2.close
        (.error e, evs1 ++ evs2 ++ fin.2.2)
    else
      match db1.execute_query B query with
      | (.ok rows, db2, evs2) =>
        let fin := db2.close
        (.ok (.raw rows), evs1 ++ evs2 ++ fin.2.2)
      | (.error e, db2, evs2) =>
        let fin := db2.close
        (.error e, evs1 ++ evs2 ++ fin.2.2)

/-- The outcome of the `try` body of `pull_databricks_data` alone,
before the `finally` clause runs: used to state that `close` neither
raises over nor alters the observed outcome. -/
def pullBodyOutcome (B : Backend)
    (hostname http_path personal_access_token query : String)
    (as_dataframe : Bool) : Except String PullResult :=
  let db := DatabricksConnection.init hostname http_path personal_access_token none none
  match db.connect B with
  | (.error e, _, _) => .error e
  | (.ok _, db1, _) =>
    if as_dataframe then
      match db1.query_to_dataframe B query with
      | (.ok df, _, _) => .ok (.table df)
      | (.error e, _, _) => .error e
    else
      match db1.execute_query B query with
      | (.ok rows, _, _) => .ok (.raw rows)
      | (.error e, _, _) => .error e

/-- Collaborator behaviour of the concrete scenario in the spec: a
reachable warehouse whose sole query yields rows
`[(1, "a"), (2, "b")]` under columns `id` and `name`. -/
def exampleBackend : Backend :=
  { connectOk := true
    connectErr := ""
    cursorOk := true
    cursorErr := ""
    execOk := fun _ => true
    execErr := fun _ => ""
    fetchRows := fun _ => [[Value.int 1, Value.str "a"], [Value.int 2, Value.str "b"]]
    colDescs := fun _ => [("id", "INT"), ("name", "STRING")] }

/-- Collaborator behaviour where `sql.connect` itself fails. -/
def connFailBackend : Backend :=
  { exampleBackend with
    connectOk := false
    connectErr := "no route to host" }

/-- Collaborator behaviour where the session is created but
`connection.cursor()` fails. -/
def cursorFailBackend : Backend :=
  { exampleBackend with
    cursorOk := false
    cursorErr := "cursor creation failed" }

/-- Collaborator behaviour where connecting succeeds and query execution
fails with message `boom`. -/
def execFailBackend : Backend :=
  { exampleBackend with
    execOk := fun _ => false
    execErr := fun _ => "boom" }

/-- A handle that has been opened successfully against the example
warehouse. -/
def connectedHandle : DatabricksConnection :=
  ((DatabricksConnection.init "adb-x.azuredatabricks.net" "/sql/1.0/warehouses/x" "tok"
      none none).connect exampleBackend).2.1

/-- Column extraction from a dataframe: the ordered values of the named
column, `none` marking positions a (padded) row does not cover. -/
def DataFrame.col (df : DataFrame) (name : String) : List (Option Value) :=
  match df.columns.indexOf? name with
  | some i => df.rows.map fun r => r.get? i
  | none => []

/-- Every row of a fetched row list is at most as long as the pandas
width of that list. -/
theorem length_le_rowWidth {rows : List Row} {r : Row} (h : r ∈ rows) :
    r.length ≤ rowWidth rows := by
  induction rows with
  | nil => cases h
  | cons a t ih =>
    rcases List.mem_cons.mp h with rfl | ht
    · exact Nat.le_max_left _ _
    · exact le_trans (ih ht) (Nat.le_max_right _ _)

/-- Shape of a successfully constructed dataframe: the columns are the
ones passed in, the row count is preserved, and every (padded) row has
exactly one value per column. -/
theorem mkDataFrame_ok_shape {rows : List Row} {cols : List String} {df : DataFrame}
    (h : mkDataFrame rows cols = .ok df) :
    df.columns = cols ∧ df.rows.length = rows.length
      ∧ ∀ r ∈ df.rows, r.length = df.columns.length := by
  cases rows with
  | nil =>
    simp only [mkDataFrame, Except.ok.injEq] at h
    subst h
    simp
  | cons a t =>
    simp only [mkDataFrame] at h
    split at h
    · rename_i hw
      rw [Except.ok.injEq] at h
      subst h
      refine ⟨rfl, by simp, ?_⟩
      intro r hr
      simp only [List.mem_map] at hr
      obtain ⟨r0, hr0, rfl⟩ := hr
      simp only [List.length_append, List.length_replicate]
      rw [Nat.add_sub_cancel' (length_le_rowWidth hr0), hw]
    · exact absurd h (by simp)

/-- Rows handed to the dataframe constructor by a successful
`execute_query` are exactly the rows the backend fetch returned. -/
theorem execute_query_ok_rows {B : Backend} {db s : DatabricksConnection} {q : String}
    {rows : List Row} {evs : List Event}
    (h : db.execute_query B q = (.ok rows, s, evs)) :
    rows = B.fetchRows q := by
  unfold DatabricksConnection.execute_query at h
  split at h
  · simp at h
  · split at h
    · rw [Prod.mk.injEq] at h
      exact (Except.ok.injEq _ _).mp h.1.symm
    · simp at h

/-- C5: whenever Execute-to-table returns a table, the column-name
sequence has the same length as every row of the table, and the row
count equals the number of rows the underlying fetch returned. -/
theorem qdf_shape_invariant (B : Backend) (db s : DatabricksConnection)
    (q : String) (df : DataFrame) (evs : List Event)
    (h : db.query_to_dataframe B q = (.ok df, s, evs)) :
    (∀ r ∈ df.rows, r.length = df.columns.length)
      ∧ df.rows.length = (B.fetchRows q).length := by
  unfold DatabricksConnection.query_to_dataframe at h
  split at h
  · simp at h
  · rename_i results db1 evs1 hexec
    split at h
    · simp at h
    · split at h
      · simp at h
      · dsimp only at h
        split at h
        · simp at h
        · rename_i c hcur descs hdesc df0 hmk
          rw [Prod.mk.injEq] at h
          obtain ⟨hdf, -⟩ := h
          rw [Except.ok.injEq] at hdf
          subst hdf
          obtain ⟨-, hlen, hshape⟩ := mkDataFrame_ok_shape hmk
          exact ⟨hshape, by rw [hlen, execute_query_ok_rows hexec]⟩

/-- C5 witness: the shape invariant instantiated at the example
warehouse scenario. -/
theorem qdf_shape_invariant_witness :
    (∀ r ∈ (({ columns := ["id", "name"],
               rows := [[Value.int 1, Value.str "a"],
                        [Value.int 2, Value.str "b"]] } : DataFrame)).rows,
        r.length = (({ columns := ["id", "name"],
                       rows := [[Value.int 1, Value.str "a"],
                                [Value.int 2, Value.str "b"]] } : DataFrame)).columns.length)
      ∧ (({ columns := ["id", "name"],
            rows := [[Value.int 1, Value.str "a"],
                     [Value.int 2, Value.str "b"]] } : DataFrame)).rows.length
          = (exampleBackend.fetchRows "SELECT 1").length :=
  qdf_shape_invariant exampleBackend connectedHandle
    (connectedHandle.query_to_dataframe exampleBackend "SELECT 1").2.1 "SELECT 1"
    { columns := ["id", "name"],
      rows := [[Value.int 1, Value.str "a"], [Value.int 2, Value.str "b"]] }
    (connectedHandle.query_to_dataframe exampleBackend "SELECT 1").2.2 (by decide)

/-- C6: against the example session (rows `(1, a)` and `(2, b)`, columns
`id` and `name`), Execute-to-table returns the table with columns
`id`, `name` and those two rows — equivalently, column `id` holds
`[1, 2]` and column `name` holds `[a, b]` — with row count 2, and the
row count is reported on success. -/
theorem qdf_example_scenario :
    (connectedHandle.query_to_dataframe exampleBackend "SELECT 1").1
      = .ok { columns := ["id", "name"],
              rows := [[Value.int 1, Value.str "a"], [Value.int 2, Value.str "b"]] }
    ∧ ((connectedHandle.query_to_dataframe exampleBackend "SELECT 1").1.toOption.map
        fun df => df.col "id")
      = some [some (Value.int 1), some (Value.int 2)]
    ∧ ((connectedHandle.query_to_dataframe exampleBackend "SELECT 1").1.toOption.map
        fun df => df.col "name")
      = some [some (Value.str "a"), some (Value.str "b")]
    ∧ ((connectedHandle.query_to_dataframe exampleBackend "SELECT 1").1.toOption.map
        fun df => df.rows.length)
      = some 2
    ∧ Event.print "✓ Retrieved 2 rows"
        ∈ (connectedHandle.query_to_dataframe exampleBackend "SELECT 1").2.2 := by
  refine ⟨by decide, by decide, by decide, by decide, by decide⟩

/-- C2: close never raises in any handle state, a second close after a
first also never raises, and an absent cursor or session is skipped (no
collaborator close call is made on it). -/
theorem close_idempotent (db : DatabricksConnection) :
    (db.close).1 = .ok ()
    ∧ ((db.close).2.1.close).1 = .ok ()
    ∧ (db.cursor = none → Event.closeCursor ∉ (db.close).2.2)
    ∧ (db.connection = none → Event.closeConn ∉ (db.close).2.2) := by
  unfold DatabricksConnection.close
  rcases hc : db.cursor with _ | c <;> rcases hn : db.connection <;> simp [hc, hn]

/-- C2 witness: close on a freshly initialised (never connected) handle,
twice, with both skip conclusions. -/
theorem close_idempotent_witness :
    ((DatabricksConnection.init "h" "p" "t" none none).close).1 = .ok ()
    ∧ (((DatabricksConnection.init "h" "p" "t" none none).close).2.1.close).1 = .ok ()
    ∧ Event.closeCursor ∉ ((DatabricksConnection.init "h" "p" "t" none none).close).2.2
    ∧ Event.closeConn ∉ ((DatabricksConnection.init "h" "p" "t" none none).close).2.2 :=
  ⟨(close_idempotent _).1, (close_idempotent _).2.1,
   (close_idempotent _).2.2.1 rfl, (close_idempotent _).2.2.2 rfl⟩

/-- C3: for parameters accepted by the warehouse, Open followed
immediately by Close succeeds and leaves no open session or cursor held
by the handle: every resource still referenced has been released. -/
theorem open_close_releases (B : Backend) (h p t : String)
    (hConn : B.connectOk = true) (hCur : B.cursorOk = true) :
    (((DatabricksConnection.init h p t none none).connect B)).1 = .ok ()
    ∧ allReleased ((((DatabricksConnection.init h p t none none).connect B)).2.1.close).2.1
        = true := by
  simp [DatabricksConnection.init, DatabricksConnection.connect, DatabricksConnection.close,
        allReleased, hConn, hCur]

/-- C3 witness: open then close against the example warehouse. -/
theorem open_close_releases_witness :
    (((DatabricksConnection.init "h" "p" "t" none none).connect exampleBackend)).1 = .ok ()
    ∧ allReleased
        ((((DatabricksConnection.init "h" "p" "t" none none).connect
            exampleBackend)).2.1.close).2.1 = true :=
  open_close_releases exampleBackend "h" "p" "t" rfl rfl

/-- C10: if `sql.connect` succeeds but `connection.cursor()` fails,
connect re-raises the cursor failure leaving the session stored and the
cursor absent, and a subsequent close releases exactly the session —
no cursor close is attempted — without raising. -/
theorem connect_partial_failure_cleanup (B : Backend) (h p t : String)
    (hConn : B.connectOk = true) (hCur : B.cursorOk = false) :
    ((DatabricksConnection.init h p t none none).connect B).1 = .error B.cursorErr
    ∧ ((DatabricksConnection.init h p t none none).connect B).2.1.connection
        = some { closed := false }
    ∧ ((DatabricksConnection.init h p t none none).connect B).2.1.cursor = none
    ∧ ((((DatabricksConnection.init h p t none none).connect B).2.1.close)).1 = .ok ()
    ∧ ((((DatabricksConnection.init h p t none none).connect B).2.1.close)).2.1.connection
        = some { closed := true }
    ∧ Event.closeCursor ∉ ((((DatabricksConnection.init h p t none none).connect B).2.1.close)).2.2
    ∧ Event.closeConn ∈ ((((DatabricksConnection.init h p t none none).connect B).2.1.close)).2.2 := by
  simp [DatabricksConnection.init, DatabricksConnection.connect, DatabricksConnection.close,
        hConn, hCur]

/-- C10 witness: the partial-failure cleanup at the backend whose cursor
creation fails. -/
theorem connect_partial_failure_cleanup_witness :
    ((DatabricksConnection.init "h" "p" "t" none none).connect cursorFailBackend).1
        = .error cursorFailBackend.cursorErr
    ∧ ((DatabricksConnection.init "h" "p" "t" none none).connect cursorFailBackend).2.1.connection
        = some { closed := false }
    ∧ ((DatabricksConnection.init "h" "p" "t" none none).connect cursorFailBackend).2.1.cursor
        = none
    ∧ ((((DatabricksConnection.init "h" "p" "t" none none).connect
          cursorFailBackend).2.1.close)).1 = .ok ()
    ∧ ((((DatabricksConnection.init "h" "p" "t" none none).connect
          cursorFailBackend).2.1.close)).2.1.connection = some { closed := true }
    ∧ Event.closeCursor ∉ ((((DatabricksConnection.init "h" "p" "t" none none).connect
          cursorFailBackend).2.1.close)).2.2
    ∧ Event.closeConn ∈ ((((DatabricksConnection.init "h" "p" "t" none none).connect
          cursorFailBackend).2.1.close)).2.2 :=
  connect_partial_failure_cleanup cursorFailBackend "h" "p" "t" rfl rfl

/-- C8 counterexample: with an empty hostname — an empty required field —
a connection attempt is still made (and here even succeeds): the module
performs no non-emptiness validation before attempting to connect. -/
theorem connect_no_validation_cex :
    Event.connectAttempt "" "p" "t"
      ∈ ((DatabricksConnection.init "" "p" "t" none none).connect exampleBackend).2.2
    ∧ ((DatabricksConnection.init "" "p" "t" none none).connect exampleBackend).1
        = .ok () := by
  exact ⟨by decide, by decide⟩

/-- C8 amended: the module validates nothing; connect always issues a
connection attempt carrying exactly the stored hostname, path and token,
whether or not they are empty. -/
theorem connect_attempts_stored_params (B : Backend) (h p t : String)
    (cat sch : Option String) :
    Event.connectAttempt h p t
      ∈ ((DatabricksConnection.init h p t cat sch).connect B).2.2 := by
  unfold DatabricksConnection.connect DatabricksConnection.init
  rcases hco : B.connectOk <;> rcases hcu : B.cursorOk <;> simp

/-- C1 counterexample: when query execution fails inside
Execute-to-table, the caller does observe the original exception, but
two diagnostics are emitted for the single failure — one by
`execute_query` at the point of detection and a second by
the handler of `query_to_dataframe` itself — not exactly one. -/
theorem qdf_double_diagnostic_cex :
    (connectedHandle.query_to_dataframe execFailBackend "SELECT 1").1 = .error "boom"
    ∧ printsOf (connectedHandle.query_to_dataframe execFailBackend "SELECT 1").2.2
      = ["✗ Query execution failed: boom",
         "✗ Failed to convert results to DataFrame: boom"]
    ∧ (printsOf (connectedHandle.query_to_dataframe execFailBackend "SELECT 1").2.2).length
        ≠ 1 := by
  exact ⟨by decide, by decide, by decide⟩

/-- C1 amended: when execution fails during Execute-to-table on a handle
whose cursor exists, the original exception is re-raised unchanged to
the caller, and exactly two diagnostics are emitted: the detection-point
message of Execute and the wrapping message of Execute-to-table. -/
theorem qdf_exec_failure_two_diagnostics (B : Backend) (db : DatabricksConnection)
    (q : String) (c : Cursor) (hc : db.cursor = some c) (he : B.execOk q = false) :
    (db.query_to_dataframe B q).1 = .error (B.execErr q)
    ∧ printsOf (db.query_to_dataframe B q).2.2
      = ["✗ Query execution failed: " ++ B.execErr q,
         "✗ Failed to convert results to DataFrame: " ++ B.execErr q] := by
  unfold DatabricksConnection.query_to_dataframe DatabricksConnection.execute_query
  simp [hc, he, printsOf]

/-- C1 amended witness: the two diagnostics at the failing example
backend. -/
theorem qdf_exec_failure_two_diagnostics_witness :
    (connectedHandle.query_to_dataframe execFailBackend "q").1
        = .error (execFailBackend.execErr "q")
    ∧ printsOf (connectedHandle.query_to_dataframe execFailBackend "q").2.2
      = ["✗ Query execution failed: " ++ execFailBackend.execErr "q",
         "✗ Failed to convert results to DataFrame: " ++ execFailBackend.execErr "q"] :=
  qdf_exec_failure_two_diagnostics execFailBackend connectedHandle "q"
    { closed := false, description := none } rfl rfl

/-- C7: with the raw-rows flag the convenience entry point never
constructs a dataframe, and whenever the run succeeds it returns exactly
the list of row tuples the underlying fetch produced. -/
theorem pull_raw_no_dataframe (B : Backend) (h p t q : String) :
    countBuildDataFrame (pull_databricks_data B h p t q false).2 = 0
    ∧ (B.connectOk = true → B.cursorOk = true → B.execOk q = true →
        (pull_databricks_data B h p t q false).1 = .ok (.raw (B.fetchRows q))) := by
  rcases hco : B.connectOk <;> rcases hcu : B.cursorOk <;> rcases hex : B.execOk q <;>
    simp [pull_databricks_data, DatabricksConnection.init, DatabricksConnection.connect,
          DatabricksConnection.execute_query, DatabricksConnection.close,
          countBuildDataFrame, hco, hcu, hex]

/-- C7 witness: against the example warehouse the raw-rows call returns
exactly the fetched tuples `(1, a)` and `(2, b)` and builds no
dataframe. -/
theorem pull_raw_no_dataframe_witness :
    countBuildDataFrame (pull_databricks_data exampleBackend "h" "p" "t" "q" false).2 = 0
    ∧ (pull_databricks_data exampleBackend "h" "p" "t" "q" false).1
        = .ok (.raw [[Value.int 1, Value.str "a"], [Value.int 2, Value.str "b"]]) :=
  ⟨(pull_raw_no_dataframe exampleBackend "h" "p" "t" "q").1,
   (pull_raw_no_dataframe exampleBackend "h" "p" "t" "q").2 rfl rfl rfl⟩

/-- C4: on every run of the convenience entry point, close is invoked
exactly once; the observed outcome is exactly the outcome of the try
body — close neither raises over it nor alters it; and when Open fails,
no query execution is ever attempted. -/
theorem pull_close_guarantees (B : Backend) (h p t q : String) (flag : Bool) :
    countCloseCalls (pull_databricks_data B h p t q flag).2 = 1
    ∧ (pull_databricks_data B h p t q flag).1 = pullBodyOutcome B h p t q flag
    ∧ ((B.connectOk && B.cursorOk) = false →
        countExecAttempts (pull_databricks_data B h p t q flag).2 = 0) := by
  rcases hco : B.connectOk <;> rcases hcu : B.cursorOk <;> rcases flag <;>
    rcases hex : B.execOk q <;>
    simp [pull_databricks_data, pullBodyOutcome, DatabricksConnection.init,
          DatabricksConnection.connect, DatabricksConnection.execute_query,
          DatabricksConnection.query_to_dataframe, DatabricksConnection.close,
          countCloseCalls, countExecAttempts, hco, hcu, hex]
  all_goals rcases hmk : mkDataFrame (B.fetchRows q) ((B.colDescs q).map Prod.fst) <;>
    simp [hmk, countCloseCalls, countExecAttempts]

/-- C4 witness: a run whose Open fails — close is still invoked exactly
once, the original connect failure is the observed outcome, and no
execution is attempted. -/
theorem pull_close_guarantees_witness :
    countCloseCalls (pull_databricks_data connFailBackend "h" "p" "t" "q" true).2 = 1
    ∧ (pull_databricks_data connFailBackend "h" "p" "t" "q" true).1
        = pullBodyOutcome connFailBackend "h" "p" "t" "q" true
    ∧ countExecAttempts (pull_databricks_data connFailBackend "h" "p" "t" "q" true).2 = 0 :=
  ⟨(pull_close_guarantees connFailBackend "h" "p" "t" "q" true).1,
   (pull_close_guarantees connFailBackend "h" "p" "t" "q" true).2.1,
   (pull_close_guarantees connFailBackend "h" "p" "t" "q" true).2.2 (by decide)⟩

/-- Handle with its stored access token replaced: used to compare two
runs that differ only in the secret. -/
def setToken (db : DatabricksConnection) (t : String) : DatabricksConnection :=
  { db with personal_access_token := t }

/-- C9: the module never prints the access token — for each operation,
and for the convenience entry point, two runs that differ only in the
token (against identical collaborator behaviour) emit identical
diagnostic and status output. -/
theorem token_noninterference (B : Backend) (db : DatabricksConnection)
    (t1 t2 h p q : String) (flag : Bool) :
    printsOf ((setToken db t1).connect B).2.2 = printsOf ((setToken db t2).connect B).2.2
    ∧ printsOf ((setToken db t1).execute_query B q).2.2
        = printsOf ((setToken db t2).execute_query B q).2.2
    ∧ printsOf ((setToken db t1).query_to_dataframe B q).2.2
        = printsOf ((setToken db t2).query_to_dataframe B q).2.2
    ∧ printsOf ((setToken db t1).close).2.2 = printsOf ((setToken db t2).close).2.2
    ∧ printsOf (pull_databricks_data B h p t1 q flag).2
        = printsOf (pull_databricks_data B h p t2 q flag).2 := by
  refine ⟨?_, ?_, ?_, ?_, ?_⟩
  · rcases hco : B.connectOk <;> rcases hcu : B.cursorOk <;>
      simp [setToken, DatabricksConnection.connect, printsOf, hco, hcu]
  · rcases hc : db.cursor <;> rcases hex : B.execOk q <;>
      simp [setToken, DatabricksConnection.execute_query, printsOf, hc, hex]
  · rcases hc : db.cursor with _ | c
    · simp [setToken, DatabricksConnection.query_to_dataframe,
            DatabricksConnection.execute_query, printsOf, hc]
    · rcases hex : B.execOk q <;>
        simp [setToken, DatabricksConnection.query_to_dataframe,
              DatabricksConnection.execute_query, printsOf, hc, hex]
      rcases hmk : mkDataFrame (B.fetchRows q) ((B.colDescs q).map Prod.fst) <;>
        simp [hmk, printsOf]
  · rcases hc : db.cursor <;> rcases hn : db.connection <;>
      simp [setToken, DatabricksConnection.close, printsOf, hc, hn]
  · rcases hco : B.connectOk <;> rcases hcu : B.cursorOk <;> rcases flag <;>
      rcases hex : B.execOk q <;>
      simp [pull_databricks_data, DatabricksConnection.init,
            DatabricksConnection.connect, DatabricksConnection.execute_query,
            DatabricksConnection.query_to_dataframe, DatabricksConnection.close,
            printsOf, hco, hcu, hex]
    all_goals rcases hmk : mkDataFrame (B.fetchRows q) ((B.colDescs q).map Prod.fst) <;>
      simp [hmk, printsOf]

end DatabricksQuery
